import Mathlib

/-
Verification development for the `queued_animated_sprites_macroquad` crate.

The Rust state machine is shallowly embedded in Lean.  Times (`f32` in the
source, type aliases `Seconds` / `EffectDuration`) are modelled as exact
rationals `ℚ`; `f32::MAX`, used by the source as an "unbounded duration"
sentinel, is modelled by the exact rational value of `f32::MAX`,
namely (2^24 - 1) * 2^104.  The `HashMap<K, Animation>` is modelled as a
function `K → Option Animation`; `VecDeque` as a `List` whose head is the
queue front.  `get_frame_time()` (the per-tick delta) is an explicit input
of `update`.  The concrete visual transform attached to an animation
(`AnimationEffect`) is never inspected by the state machine, only the
`EffectTimeTarget` beside it is; it is therefore modelled by a bare tag.
-/

namespace QueuedAnimatedSprites

/-- Exact rational value of `f32::MAX`, the sentinel the source uses for an
unbounded queue duration (`src/animated_sprite/animated_sprite.rs`). -/
def f32MAX : ℚ := (2 ^ 24 - 1) * 2 ^ 104

/-- Stand-in for the crate's `AnimationEffect` enum.  The animation state
machine never inspects the transform itself (it is only applied at draw
time), so a bare tag suffices for the embedding. -/
structure AnimationEffect where
  tag : Nat
deriving DecidableEq

/-- Embedding of `EffectTimeTarget` (src/effects/effect_helper_types.rs):
`Start(d)` plays for `d` seconds from animation start, `End(d)` for `d`
seconds ending with the animation. -/
inductive EffectTimeTarget
  | Start (d : ℚ)
  | End (d : ℚ)
deriving DecidableEq

/-- Embedding of `Animation` (src/animated_sprite/animation.rs). -/
structure Animation where
  rows : List Nat
  frames_per_row : Nat
  fps : Nat
  effect : Option (AnimationEffect × EffectTimeTarget)
deriving DecidableEq

namespace Animation

/-- `Animation::new(row, frames, fps)`: a single-row animation.  `u32::max`
with 0 resp. 1 is `Nat.max`. -/
def new (row frames fps : Nat) : Animation :=
  { rows := [max row 0]
    frames_per_row := max frames 1
    fps := max fps 0
    effect := none }

/-- `Animation::new_multi_row(rows, frames_per_row, fps)`. -/
def new_multi_row (rows : List Nat) (frames_per_row fps : Nat) : Animation :=
  { rows := if rows = [] then [1] else rows
    frames_per_row := max frames_per_row 1
    fps := max fps 0
    effect := none }

/-- `Animation::with_start_effect`. -/
def with_start_effect (a : Animation) (e : AnimationEffect) (duration : ℚ) : Animation :=
  { a with effect := some (e, EffectTimeTarget.Start duration) }

/-- `Animation::with_end_effect`. -/
def with_end_effect (a : Animation) (e : AnimationEffect) (duration : ℚ) : Animation :=
  { a with effect := some (e, EffectTimeTarget.End duration) }

/-- `Animation::empty()`, defined in the source as `Animation::new(0, 0, 0)`. -/
def empty : Animation := new 0 0 0

/-- `Animation::total_frames`: `rows.len() as u32 * frames_per_row`. -/
def total_frames (a : Animation) : Nat := a.rows.length * a.frames_per_row

/-- `Animation::get_row_and_frame_and_fps`.  In Rust, `self.rows[row_index]`
is an indexing that cannot go out of bounds when `total_frames ≠ 0` (then
`rows` is non-empty and `row_index < rows.len()`); we use `getD _ 0`.  The
Rust `%`/`/` would panic when `total_frames = 0 ∧ fps ≠ 0`; no
constructor-built animation has that shape (see the C10 theorem), and Lean's
`% 0` / `/ 0` conventions are used for the out-of-contract inputs. -/
def get_row_and_frame_and_fps (a : Animation) (current_frame : Nat) : Nat × Nat × Nat :=
  let total_frames := a.rows.length * a.frames_per_row
  if total_frames = 0 ∧ a.fps = 0 then (0, 0, 0)
  else
    let adjusted_frame := current_frame % total_frames
    let row_index := adjusted_frame / a.frames_per_row
    let frame := adjusted_frame % a.frames_per_row
    (a.rows.getD row_index 0, frame, a.fps)

end Animation

/-- Embedding of `InternalEffectsState`
(src/animated_sprite/internal_effects_state.rs). -/
structure InternalEffectsState where
  effect_time : ℚ
  current_effect_duration : ℚ
  effect_start_time : ℚ
  is_active : Bool
  has_played : Bool
deriving DecidableEq

namespace InternalEffectsState

/-- `InternalEffectsState::new()`. -/
def new : InternalEffectsState :=
  { effect_time := 0
    current_effect_duration := 0
    effect_start_time := 0
    is_active := false
    has_played := false }

/-- `InternalEffectsState::reset()`: zeroes every field and clears both
flags (identical to `new`). -/
def reset (_es : InternalEffectsState) : InternalEffectsState := new

/-- `InternalEffectsState::progress()`: `min(effect_time / duration, 1)`
when the duration is positive, else `1.0`. -/
def progress (es : InternalEffectsState) : ℚ :=
  if 0 < es.current_effect_duration then
    min (es.effect_time / es.current_effect_duration) 1
  else 1

end InternalEffectsState

/-- Pixel rectangle (macroquad's `Rect`), as far as the crate computes it. -/
structure Rect where
  x : ℚ
  y : ℚ
  w : ℚ
  h : ℚ
deriving DecidableEq

/-- Embedding of `AnimatedSprite<K>` (src/animated_sprite/animated_sprite.rs).
The `HashMap<K, Animation>` is modelled as `K → Option Animation`, the
`VecDeque<AnimationQueueEntry<K>>` as a list whose head is the front. -/
structure AnimatedSprite (K : Type) where
  tile_width : ℚ
  tile_height : ℚ
  animations : K → Option Animation
  default_animation_key : K
  animation_queue : List (K × ℚ)
  current_frame : Nat
  current_animation_loop_time : ℚ
  current_animation_time : ℚ
  current_queue_time : ℚ
  playing_time : ℚ
  paused : Bool
  current_animation_key : K
  previous_animation_key : Option K
  effects_state : InternalEffectsState

namespace AnimatedSprite

variable {K : Type}

/-- `AnimatedSprite::new`: one animation registered under the default key. -/
def new [DecidableEq K] (tile_width tile_height : ℚ) (default_animation_key : K)
    (default_animation : Animation) : AnimatedSprite K :=
  { tile_width := tile_width
    tile_height := tile_height
    animations := fun k => if k = default_animation_key then some default_animation else none
    default_animation_key := default_animation_key
    animation_queue := []
    current_frame := 0
    current_animation_loop_time := 0
    current_animation_time := 0
    current_queue_time := 0
    playing_time := 0
    paused := false
    current_animation_key := default_animation_key
    previous_animation_key := none
    effects_state := InternalEffectsState.new }

/-- `AnimatedSprite::start_new_animation` (private helper): resets the
per-animation counters and the effect tracker, then initialises the
tracker from the new animation's effect target, capping the effect
duration by the animation's duration. -/
def start_new_animation (s : AnimatedSprite K) (key : K) (animation_duration : ℚ) :
    AnimatedSprite K :=
  let s :=
    { s with
      previous_animation_key := some s.current_animation_key
      current_animation_key := key
      current_frame := 0
      current_animation_loop_time := 0
      current_animation_time := 0
      current_queue_time := 0
      effects_state := s.effects_state.reset }
  match s.animations s.current_animation_key with
  | none => s
  | some new_animation =>
    match new_animation.effect with
    | some (_, EffectTimeTarget.Start duration) =>
      let capped_duration := min duration animation_duration
      { s with effects_state :=
        { s.effects_state with
          current_effect_duration := capped_duration
          is_active := true
          effect_start_time := 0 } }
    | some (_, EffectTimeTarget.End duration) =>
      let capped_duration := min duration animation_duration
      { s with effects_state :=
        { s.effects_state with
          current_effect_duration := capped_duration
          is_active := false
          effect_start_time := animation_duration - capped_duration } }
    | none =>
      { s with effects_state :=
        { s.effects_state with
          is_active := false
          current_effect_duration := 0
          effect_start_time := 0 } }

/-- `AnimatedSprite::register_animation`: insert or overwrite. -/
def register_animation [DecidableEq K] (s : AnimatedSprite K) (key : K) (animation : Animation) :
    AnimatedSprite K :=
  { s with animations := fun k => if k = key then some animation else s.animations k }

/-- `AnimatedSprite::delete_animation`. -/
def delete_animation [DecidableEq K] (s : AnimatedSprite K) (key : K) : AnimatedSprite K :=
  { s with animations := fun k => if k = key then none else s.animations k }

/-- `AnimatedSprite::add_animation_to_queue`.  The Rust method mutates in
place and returns `Option<&mut Self>`; we return the post-call state and a
success flag (`false` = key unregistered, in which case the source performs
no mutation at all). -/
def add_animation_to_queue (s : AnimatedSprite K) (key : K) (duration : ℚ) :
    AnimatedSprite K × Bool :=
  if (s.animations key).isSome then
    let s := { s with animation_queue := s.animation_queue ++ [(key, duration)] }
    if s.animation_queue.length = 1 then (s.start_new_animation key duration, true)
    else (s, true)
  else (s, false)

/-- `AnimatedSprite::next_in_queue`: pops the queue front and zeroes the
frame index and in-animation time (and nothing else — in particular not
`current_queue_time` and not `current_animation_key`). -/
def next_in_queue (s : AnimatedSprite K) : AnimatedSprite K :=
  { s with
    animation_queue := s.animation_queue.tail
    current_frame := 0
    current_animation_time := 0 }

/-- `AnimatedSprite::reset_queue`. -/
def reset_queue (s : AnimatedSprite K) : AnimatedSprite K :=
  { s with
    animation_queue := []
    current_frame := 0
    current_animation_time := 0 }

/-- `AnimatedSprite::play`. -/
def play (s : AnimatedSprite K) : AnimatedSprite K := { s with paused := false }

/-- `AnimatedSprite::pause`. -/
def pause (s : AnimatedSprite K) : AnimatedSprite K := { s with paused := true }

/-- `AnimatedSprite::get_current_animation_key`: queue front's key, or the
default key when the queue is empty. -/
def get_current_animation_key (s : AnimatedSprite K) : K :=
  match s.animation_queue.head? with
  | some (k, _) => k
  | none => s.default_animation_key

/-- `AnimatedSprite::get_current_animation`. -/
def get_current_animation (s : AnimatedSprite K) : Option Animation :=
  s.animations s.get_current_animation_key

/-- `AnimatedSprite::set_frame`: `current_frame = frame % total_frames` of
the animation resolved from the queue front / default key; `none` when that
key is unregistered.  (Rust `%` would panic at `total_frames = 0`; Lean's
`% 0` convention is used for that out-of-contract input.) -/
def set_frame (s : AnimatedSprite K) (frame : Nat) : Option (AnimatedSprite K) :=
  match s.get_current_animation with
  | none => none
  | some animation => some { s with current_frame := frame % animation.total_frames }

/-- Closed form of `update`'s frame-advance loop
`while current_animation_loop_time >= frame_duration { current_frame =
(current_frame + 1) % total_frames; current_animation_loop_time -=
frame_duration }` with `frame_duration = 1.0 / fps`.  When `fps = 0` the
Rust division yields `f32::INFINITY` and the loop condition is never true,
modelled by the first branch.  Otherwise the loop runs
`n = ⌊t / (1/fps)⌋ = ⌊t * fps⌋` times; iterating
`frame ↦ (frame + 1) % N` a positive number `n` of times from any `frame`
lands on `(frame + n) % N`, and zero iterations leave `frame` untouched. -/
def drainFrames (fps total_frames frame : Nat) (t : ℚ) : Nat × ℚ :=
  if fps = 0 then (frame, t)
  else
    let frame_duration : ℚ := 1 / (fps : ℚ)
    if t < frame_duration then (frame, t)
    else
      let n : Nat := (⌊t * (fps : ℚ)⌋).toNat
      ((frame + n) % total_frames, t - (n : ℚ) * frame_duration)

/-- The "handle effect activation" block of `update`: activate a
`Start`-targeted effect if the tracker is inactive and has not played; the
same for an `End`-targeted effect, but only once `current_animation_time`
has reached `effect_start_time`.  Activation zeroes `effect_time`. -/
def effectActivationStep (effect : Option (AnimationEffect × EffectTimeTarget))
    (current_animation_time : ℚ) (es : InternalEffectsState) : InternalEffectsState :=
  match effect with
  | some (_, EffectTimeTarget.Start _) =>
    if !es.is_active && !es.has_played then
      { es with is_active := true, effect_time := 0 }
    else es
  | some (_, EffectTimeTarget.End _) =>
    if !es.is_active && !es.has_played &&
        decide (es.effect_start_time ≤ current_animation_time) then
      { es with is_active := true, effect_time := 0 }
    else es
  | none => es

/-- The "update effect state" block of `update`: while active, accumulate
the delta into `effect_time`; once it reaches `current_effect_duration`,
deactivate and set `has_played`. -/
def effectUpdateStep (dt : ℚ) (es : InternalEffectsState) : InternalEffectsState :=
  if es.is_active then
    let et := es.effect_time + dt
    if es.current_effect_duration ≤ et then
      { es with effect_time := et, is_active := false, has_played := true }
    else { es with effect_time := et }
  else es

/-- Everything `AnimatedSprite::update` does before its final
queue-switching block, given the tick's delta: timer accumulation, the
first `should_switch` probe against the queue front, effect
activation/expiry, the frame-advance loop, and the second switch probe
(whose missing front defaults to `f32::MAX`).  Returns the intermediate
state and the `switch_animation` flag.  The pause early-return lives in
`update` itself. -/
def updatePhases (s : AnimatedSprite K) (dt : ℚ) : AnimatedSprite K × Bool :=
  let s :=
    { s with
      playing_time := s.playing_time + dt
      current_animation_loop_time := s.current_animation_loop_time + dt
      current_animation_time := s.current_animation_time + dt
      current_queue_time := s.current_queue_time + dt }
  let switch1 : Bool :=
    match s.animation_queue.head? with
    | some (_, duration) => decide (duration ≤ s.current_queue_time)
    | none => false
  match s.animations s.current_animation_key with
  | none => (s, switch1)
  | some animation =>
    let es := effectUpdateStep dt
      (effectActivationStep animation.effect s.current_animation_time s.effects_state)
    let fr := drainFrames animation.fps animation.total_frames s.current_frame
      s.current_animation_loop_time
    let s :=
      { s with
        effects_state := es
        current_frame := fr.1
        current_animation_loop_time := fr.2 }
    let front_duration : ℚ :=
      match s.animation_queue.head? with
      | some (_, d) => d
      | none => f32MAX
    (s, switch1 || decide (front_duration ≤ s.current_queue_time))

/-- The exact condition under which `update` runs its queue-switching block:
`switch_animation && !self.effects_state.is_active`, evaluated on the
post-phase state (and never while paused). -/
def switchFired (s : AnimatedSprite K) (dt : ℚ) : Bool :=
  !s.paused && (updatePhases s dt).2 && !(updatePhases s dt).1.effects_state.is_active

/-- `AnimatedSprite::update`, with the tick delta (`get_frame_time()` in
the source) as an explicit input. -/
def update (s : AnimatedSprite K) (dt : ℚ) : AnimatedSprite K :=
  if s.paused then s
  else
    let s1 := (updatePhases s dt).1
    if (updatePhases s dt).2 && !s1.effects_state.is_active then
      let s2 := { s1 with animation_queue := s1.animation_queue.tail }
      match s2.animation_queue.head? with
      | some (next_key, duration) => s2.start_new_animation next_key duration
      | none => s2.start_new_animation s2.default_animation_key f32MAX
    else s1

/-- Iterated `update` over a list of tick deltas. -/
def ticks (s : AnimatedSprite K) (dts : List ℚ) : AnimatedSprite K :=
  dts.foldl update s

/-- Internal `_get_current_frame_rect`: unconditionally `Some` rect. -/
def _get_current_frame_rect (s : AnimatedSprite K) (row frame : Nat) : Option Rect :=
  some
    { x := s.tile_width * (frame : ℚ)
      y := s.tile_height * (row : ℚ)
      w := s.tile_width
      h := s.tile_height }

/-- `AnimatedSprite::get_current_frame_rect`: `none` exactly when the
current animation key (queue front / default) is unregistered. -/
def get_current_frame_rect (s : AnimatedSprite K) : Option Rect :=
  match s.get_current_animation with
  | none => none
  | some animation =>
    let rff := animation.get_row_and_frame_and_fps s.current_frame
    s._get_current_frame_rect rff.1 rff.2.1

/-- `AnimatedSprite::get_queue_length`. -/
def get_queue_length (s : AnimatedSprite K) : Nat := s.animation_queue.length

/-- `AnimatedSprite::get_animation_playing_time`: the source divides the
accumulated `playing_time` (already in seconds) by `1000.0`. -/
def get_animation_playing_time (s : AnimatedSprite K) : ℚ := s.playing_time / 1000

/-- `AnimatedSprite::get_current_animation_time` (same division). -/
def get_current_animation_time (s : AnimatedSprite K) : ℚ := s.current_animation_time / 1000

end AnimatedSprite

end QueuedAnimatedSprites

namespace QueuedAnimatedSprites

namespace AnimatedSprite

variable {K : Type}

/-- The pre-switch phase of `update` never touches the queue. -/
theorem updatePhases_queue (s : AnimatedSprite K) (dt : ℚ) :
    (updatePhases s dt).1.animation_queue = s.animation_queue := by
  unfold updatePhases
  dsimp only
  split <;> rfl

/-- The pre-switch phase of `update` never touches the current key. -/
theorem updatePhases_key (s : AnimatedSprite K) (dt : ℚ) :
    (updatePhases s dt).1.current_animation_key = s.current_animation_key := by
  unfold updatePhases
  dsimp only
  split <;> rfl

/-- The pre-switch phase of `update` never touches the animation map. -/
theorem updatePhases_animations (s : AnimatedSprite K) (dt : ℚ) :
    (updatePhases s dt).1.animations = s.animations := by
  unfold updatePhases
  dsimp only
  split <;> rfl

/-- The pre-switch phase of `update` never touches the paused flag. -/
theorem updatePhases_paused (s : AnimatedSprite K) (dt : ℚ) :
    (updatePhases s dt).1.paused = s.paused := by
  unfold updatePhases
  dsimp only
  split <;> rfl

/-- The pre-switch phase of `update` adds the delta to `playing_time`. -/
theorem updatePhases_playing_time (s : AnimatedSprite K) (dt : ℚ) :
    (updatePhases s dt).1.playing_time = s.playing_time + dt := by
  unfold updatePhases
  dsimp only
  split <;> rfl

/-- The pre-switch phase of `update` adds the delta to `current_queue_time`. -/
theorem updatePhases_queue_time (s : AnimatedSprite K) (dt : ℚ) :
    (updatePhases s dt).1.current_queue_time = s.current_queue_time + dt := by
  unfold updatePhases
  dsimp only
  split <;> rfl

/-- `start_new_animation` zeroes the frame index. -/
theorem start_new_animation_frame (s : AnimatedSprite K) (key : K) (d : ℚ) :
    (s.start_new_animation key d).current_frame = 0 := by
  unfold start_new_animation
  dsimp only
  split
  · rfl
  · split <;> rfl

/-- `start_new_animation` installs the new key. -/
theorem start_new_animation_key (s : AnimatedSprite K) (key : K) (d : ℚ) :
    (s.start_new_animation key d).current_animation_key = key := by
  unfold start_new_animation
  dsimp only
  split
  · rfl
  · split <;> rfl

/-- `start_new_animation` never touches the queue. -/
theorem start_new_animation_queue (s : AnimatedSprite K) (key : K) (d : ℚ) :
    (s.start_new_animation key d).animation_queue = s.animation_queue := by
  unfold start_new_animation
  dsimp only
  split
  · rfl
  · split <;> rfl

/-- `start_new_animation` never touches `playing_time`. -/
theorem start_new_animation_playing_time (s : AnimatedSprite K) (key : K) (d : ℚ) :
    (s.start_new_animation key d).playing_time = s.playing_time := by
  unfold start_new_animation
  dsimp only
  split
  · rfl
  · split <;> rfl

/-- `start_new_animation` zeroes `current_queue_time`. -/
theorem start_new_animation_queue_time (s : AnimatedSprite K) (key : K) (d : ℚ) :
    (s.start_new_animation key d).current_queue_time = 0 := by
  unfold start_new_animation
  dsimp only
  split
  · rfl
  · split <;> rfl

/-- `start_new_animation` zeroes `current_animation_time`. -/
theorem start_new_animation_time (s : AnimatedSprite K) (key : K) (d : ℚ) :
    (s.start_new_animation key d).current_animation_time = 0 := by
  unfold start_new_animation
  dsimp only
  split
  · rfl
  · split <;> rfl

/-- `start_new_animation` never touches the animation map. -/
theorem start_new_animation_animations (s : AnimatedSprite K) (key : K) (d : ℚ) :
    (s.start_new_animation key d).animations = s.animations := by
  unfold start_new_animation
  dsimp only
  split
  · rfl
  · split <;> rfl

/-- `start_new_animation` clears `has_played` (the tracker is reset before
being re-initialised, and no branch sets `has_played`). -/
theorem start_new_animation_has_played (s : AnimatedSprite K) (key : K) (d : ℚ) :
    (s.start_new_animation key d).effects_state.has_played = false := by
  unfold start_new_animation
  dsimp only
  split
  · rfl
  · split <;> rfl

end AnimatedSprite

/-- C9: `reset_queue()` clears the queue and zeroes `current_frame` and
`current_animation_time`, leaving `playing_time` and every other field of
the sprite (timers, paused flag, animation map, keys, effect tracker, tile
dimensions) unchanged. -/
theorem C9_reset_queue {K : Type} (s : AnimatedSprite K) :
    (s.reset_queue).animation_queue = [] ∧
    (s.reset_queue).current_frame = 0 ∧
    (s.reset_queue).current_animation_time = 0 ∧
    (s.reset_queue).playing_time = s.playing_time ∧
    (s.reset_queue).paused = s.paused ∧
    (s.reset_queue).animations = s.animations ∧
    (s.reset_queue).current_animation_key = s.current_animation_key ∧
    (s.reset_queue).default_animation_key = s.default_animation_key ∧
    (s.reset_queue).previous_animation_key = s.previous_animation_key ∧
    (s.reset_queue).effects_state = s.effects_state ∧
    (s.reset_queue).tile_width = s.tile_width ∧
    (s.reset_queue).tile_height = s.tile_height ∧
    (s.reset_queue).current_animation_loop_time = s.current_animation_loop_time ∧
    (s.reset_queue).current_queue_time = s.current_queue_time :=
  ⟨rfl, rfl, rfl, rfl, rfl, rfl, rfl, rfl, rfl, rfl, rfl, rfl, rfl, rfl⟩

/-- C10: every constructor-built `Animation` has a non-empty `rows` vector
and `frames_per_row ≥ 1`, hence `total_frames() ≥ 1`; in particular
`Animation::empty()` has `total_frames() = 1`, `fps = 0` and a single row
`0`, so the `%` in `update`'s frame advance and in `set_frame` never takes
a zero modulus on a constructor-built animation. -/
theorem C10_constructor_total_frames (row frames fps : Nat) (rows : List Nat)
    (frames_per_row fps2 : Nat) :
    ((Animation.new row frames fps).rows ≠ [] ∧
      1 ≤ (Animation.new row frames fps).frames_per_row ∧
      1 ≤ (Animation.new row frames fps).total_frames) ∧
    ((Animation.new_multi_row rows frames_per_row fps2).rows ≠ [] ∧
      1 ≤ (Animation.new_multi_row rows frames_per_row fps2).frames_per_row ∧
      1 ≤ (Animation.new_multi_row rows frames_per_row fps2).total_frames) ∧
    Animation.empty.total_frames = 1 ∧ Animation.empty.fps = 0 ∧
    Animation.empty.rows = [0] := by
  refine ⟨⟨?_, ?_, ?_⟩, ⟨?_, ?_, ?_⟩, rfl, rfl, rfl⟩
  · simp [Animation.new]
  · simp [Animation.new]
  · simp [Animation.new, Animation.total_frames]
  · simp only [Animation.new_multi_row]
    split <;> simp_all
  · simp [Animation.new_multi_row]
  · simp only [Animation.new_multi_row, Animation.total_frames]
    have h1 : 1 ≤ (if rows = [] then [1] else rows).length := by
      split
      · simp
      · next h => exact List.length_pos.mpr h
    calc 1 = 1 * 1 := rfl
    _ ≤ (if rows = [] then [1] else rows).length * max frames_per_row 1 :=
      Nat.mul_le_mul h1 (le_max_right _ _)

/-- C8: `progress()` equals `clamp(effect_time / current_effect_duration, 0, 1)`
whenever the duration is positive (given the tracker's elapsed time is
non-negative, as produced by every reachable state), equals exactly `1`
otherwise, and always lies in `[0, 1]`. -/
theorem C8_progress (es : InternalEffectsState) (het : 0 ≤ es.effect_time) :
    (0 < es.current_effect_duration →
      es.progress = max 0 (min (es.effect_time / es.current_effect_duration) 1)) ∧
    (¬ 0 < es.current_effect_duration → es.progress = 1) ∧
    0 ≤ es.progress ∧ es.progress ≤ 1 := by
  unfold InternalEffectsState.progress
  refine ⟨fun h => ?_, fun h => if_neg h, ?_, ?_⟩
  · rw [if_pos h, eq_comm, max_eq_right]
    exact le_min (div_nonneg het h.le) zero_le_one
  · split
    · next h => exact le_min (div_nonneg het h.le) zero_le_one
    · exact zero_le_one
  · split
    · exact min_le_right _ _
    · exact le_refl 1

/-- C8 witness: concrete tracker with `effect_time = 1`, duration `4`:
progress is the clamp value `1/4`, and degenerate duration `0` yields `1`. -/
theorem C8_progress_witness :
    (0 : ℚ) ≤ (1 : ℚ) ∧
    ((0 : ℚ) < 4 →
      InternalEffectsState.progress ⟨1, 4, 0, true, false⟩ = max 0 (min ((1 : ℚ) / 4) 1)) ∧
    (¬ (0 : ℚ) < 0 → InternalEffectsState.progress ⟨1, 0, 0, true, false⟩ = 1) :=
  ⟨zero_le_one,
    fun h => ((C8_progress ⟨1, 4, 0, true, false⟩ zero_le_one).1 h),
    fun h => ((C8_progress ⟨1, 0, 0, true, false⟩ zero_le_one).2.1 h)⟩

end QueuedAnimatedSprites

namespace QueuedAnimatedSprites

/-- C4: `update()` adds the raw per-tick delta (seconds) onto
`playing_time`, while the accessor `get_animation_playing_time` divides the
stored value by 1000 — so it returns `playing_time / 1000` for every state,
despite the accumulation being in plain seconds. -/
theorem C4_playing_time {K : Type} (s : AnimatedSprite K) (dt : ℚ) (hp : s.paused = false) :
    (s.update dt).playing_time = s.playing_time + dt ∧
    ∀ s' : AnimatedSprite K, s'.get_animation_playing_time = s'.playing_time / 1000 := by
  refine ⟨?_, fun s' => rfl⟩
  rw [AnimatedSprite.update, if_neg (by simp [hp])]
  dsimp only
  split
  · split <;>
      simp [AnimatedSprite.start_new_animation_playing_time,
        AnimatedSprite.updatePhases_playing_time]
  · exact AnimatedSprite.updatePhases_playing_time s dt

/-- Concrete sprite used by the C4 witness. -/
def spriteC4w : AnimatedSprite Nat := AnimatedSprite.new 1 1 0 (Animation.new 0 1 1)

/-- C4 witness: the theorem applied at a concrete unpaused sprite. -/
theorem C4_playing_time_witness :
    spriteC4w.paused = false ∧
    (spriteC4w.update 2).playing_time = spriteC4w.playing_time + 2 ∧
    spriteC4w.get_animation_playing_time = spriteC4w.playing_time / 1000 :=
  ⟨rfl, (C4_playing_time spriteC4w 2 rfl).1, (C4_playing_time spriteC4w 2 rfl).2 spriteC4w⟩

/-- C5: `add_animation_to_queue` with an unregistered key fails and leaves
the state untouched; with a registered key it succeeds, appends to the back
of the queue, and starts the new animation (with the given duration) if and
only if the queue was empty before the call — otherwise every other field is
unchanged. -/
theorem C5_enqueue {K : Type} (s : AnimatedSprite K) (key : K) (dur : ℚ) :
    (s.animations key = none → s.add_animation_to_queue key dur = (s, false)) ∧
    (∀ a, s.animations key = some a →
      (s.add_animation_to_queue key dur).2 = true ∧
      (s.add_animation_to_queue key dur).1.animation_queue
        = s.animation_queue ++ [(key, dur)] ∧
      (s.animation_queue = [] →
        (s.add_animation_to_queue key dur).1 =
          AnimatedSprite.start_new_animation
            { s with animation_queue := [(key, dur)] } key dur ∧
        (s.add_animation_to_queue key dur).1.current_animation_key = key ∧
        (s.add_animation_to_queue key dur).1.current_queue_time = 0 ∧
        (s.add_animation_to_queue key dur).1.current_frame = 0 ∧
        (s.add_animation_to_queue key dur).1.current_animation_time = 0) ∧
      (s.animation_queue ≠ [] →
        (s.add_animation_to_queue key dur).1 =
          { s with animation_queue := s.animation_queue ++ [(key, dur)] })) := by
  constructor
  · intro hnone
    unfold AnimatedSprite.add_animation_to_queue
    rw [if_neg]
    simp [hnone]
  · intro a ha
    unfold AnimatedSprite.add_animation_to_queue
    rw [if_pos (by simp [ha])]
    dsimp only
    by_cases hq : s.animation_queue = []
    · rw [if_pos (by simp [hq])]
      refine ⟨rfl, ?_, fun _ => ⟨by simp [hq], ?_, ?_, ?_, ?_⟩, fun hne => absurd hq hne⟩
      · simp [AnimatedSprite.start_new_animation_queue, hq]
      · exact AnimatedSprite.start_new_animation_key _ key dur
      · exact AnimatedSprite.start_new_animation_queue_time _ key dur
      · exact AnimatedSprite.start_new_animation_frame _ key dur
      · exact AnimatedSprite.start_new_animation_time _ key dur
    · rw [if_neg (by simp [hq])]
      exact ⟨rfl, rfl, fun h => absurd h hq, fun _ => rfl⟩

/-- Concrete sprite used by the C5 witness: key 0 registered (default),
key 7 unregistered, empty queue. -/
def spriteC5w : AnimatedSprite Nat := AnimatedSprite.new 1 1 0 (Animation.new 0 2 1)

/-- C5 witness: the theorem applied at a concrete sprite, exercising both
the unregistered-key failure and the enqueue-into-empty-queue start. -/
theorem C5_enqueue_witness :
    (spriteC5w.animations 7 = none ∧
      spriteC5w.add_animation_to_queue 7 3 = (spriteC5w, false)) ∧
    (spriteC5w.animations 0 = some (Animation.new 0 2 1) ∧
      (spriteC5w.add_animation_to_queue 0 3).2 = true ∧
      (spriteC5w.add_animation_to_queue 0 3).1.animation_queue = [(0, 3)] ∧
      (spriteC5w.add_animation_to_queue 0 3).1.current_animation_key = 0) := by
  have h7 : spriteC5w.animations 7 = none := by
    simp [spriteC5w, AnimatedSprite.new]
  have h0 : spriteC5w.animations 0 = some (Animation.new 0 2 1) := by
    simp [spriteC5w, AnimatedSprite.new]
  have hq : spriteC5w.animation_queue = [] := rfl
  have hmain := (C5_enqueue spriteC5w 0 3).2 (Animation.new 0 2 1) h0
  refine ⟨⟨h7, (C5_enqueue spriteC5w 7 3).1 h7⟩, h0, hmain.1, ?_, (hmain.2.2.1 hq).2.1⟩
  rw [hmain.2.1, hq]
  rfl

/-- C6: for a current animation with `fps == 0`, the frame-advance step of
`update()` leaves `current_frame` unchanged (the `1.0 / fps` division
yields infinity in the source, so the drain loop runs zero iterations and
no fault occurs — modelled by `drainFrames`\'s `fps = 0` branch, which is the
identity on `(frame, loop_time)` for every input). -/
theorem C6_zero_fps {K : Type} (s : AnimatedSprite K) (dt : ℚ) (a : Animation)
    (ha : s.animations s.current_animation_key = some a) (hf : a.fps = 0) :
    (AnimatedSprite.updatePhases s dt).1.current_frame = s.current_frame ∧
    ∀ (total_frames frame : Nat) (t : ℚ),
      AnimatedSprite.drainFrames 0 total_frames frame t = (frame, t) := by
  constructor
  · unfold AnimatedSprite.updatePhases
    dsimp only
    rw [ha]
    simp [AnimatedSprite.drainFrames, hf]
  · intro total_frames frame t
    simp [AnimatedSprite.drainFrames]

/-- Concrete sprite used by the C6 witness: a 4-frame animation with
`fps = 0` as the (current) default animation. -/
def spriteC6w : AnimatedSprite Nat := AnimatedSprite.new 1 1 0 (Animation.new 0 4 0)

/-- C6 witness: the theorem applied at a concrete zero-fps sprite. -/
theorem C6_zero_fps_witness :
    spriteC6w.animations spriteC6w.current_animation_key = some (Animation.new 0 4 0) ∧
    (Animation.new 0 4 0).fps = 0 ∧
    (AnimatedSprite.updatePhases spriteC6w 1).1.current_frame = spriteC6w.current_frame ∧
    AnimatedSprite.drainFrames 0 5 2 (7/2) = (2, 7/2) := by
  have ha : spriteC6w.animations spriteC6w.current_animation_key = some (Animation.new 0 4 0) := by
    simp [spriteC6w, AnimatedSprite.new]
  exact ⟨ha, rfl, (C6_zero_fps spriteC6w 1 (Animation.new 0 4 0) ha rfl).1,
    (C6_zero_fps spriteC6w 1 (Animation.new 0 4 0) ha rfl).2 5 2 (7/2)⟩

end QueuedAnimatedSprites

namespace QueuedAnimatedSprites

namespace AnimatedSprite

variable {K : Type}

/-- The tracker is left alone by the activation block whenever it is
already active. -/
theorem effectActivationStep_of_active (effect : Option (AnimationEffect × EffectTimeTarget))
    (t : ℚ) (es : InternalEffectsState) (h : es.is_active = true) :
    effectActivationStep effect t es = es := by
  unfold effectActivationStep
  rcases effect with _ | ⟨e, tgt⟩
  · rfl
  · cases tgt <;> simp [h]

/-- If the tracker was active and the expiry block deactivated it, the
accumulated time reached the capped duration. -/
theorem effectUpdateStep_active_expired (dt : ℚ) (es : InternalEffectsState)
    (h : es.is_active = true) (hpost : (effectUpdateStep dt es).is_active = false) :
    es.current_effect_duration ≤ es.effect_time + dt := by
  unfold effectUpdateStep at hpost
  rw [if_pos h] at hpost
  dsimp only at hpost
  by_cases hdur : es.current_effect_duration ≤ es.effect_time + dt
  · exact hdur
  · rw [if_neg hdur] at hpost
    rw [h] at hpost
    exact absurd hpost (by simp)

/-- The effect tracker after the pre-switch phase, as a function of the
current animation lookup. -/
theorem updatePhases_es (s : AnimatedSprite K) (dt : ℚ) :
    (updatePhases s dt).1.effects_state =
      match s.animations s.current_animation_key with
      | none => s.effects_state
      | some a => effectUpdateStep dt
          (effectActivationStep a.effect (s.current_animation_time + dt) s.effects_state) := by
  unfold updatePhases
  dsimp only
  rcases s.animations s.current_animation_key with _ | a <;> rfl

/-- The `switch_animation` flag when the current key resolves to no
animation: only the first probe against the queue front. -/
theorem updatePhases_flag_none (s : AnimatedSprite K) (dt : ℚ)
    (hma : s.animations s.current_animation_key = none) :
    (updatePhases s dt).2 =
      (match s.animation_queue.head? with
       | some (_, d) => decide (d ≤ s.current_queue_time + dt)
       | none => false) := by
  unfold updatePhases
  dsimp only
  rw [hma]

/-- The `switch_animation` flag when the current key resolves: the first
probe or the second probe (with `f32::MAX` standing in for a missing
front). -/
theorem updatePhases_flag_some (s : AnimatedSprite K) (dt : ℚ) (a : Animation)
    (hma : s.animations s.current_animation_key = some a) :
    (updatePhases s dt).2 =
      ((match s.animation_queue.head? with
        | some (_, d) => decide (d ≤ s.current_queue_time + dt)
        | none => false) ||
       decide ((match s.animation_queue.head? with
        | some (_, d) => d
        | none => f32MAX) ≤ s.current_queue_time + dt)) := by
  unfold updatePhases
  dsimp only
  rw [hma]

/-- When the `switch_animation` flag came out true and the queue front was
`(k, q)`, the front's duration had indeed elapsed: `q ≤ current_queue_time + dt`. -/
theorem updatePhases_switch_le (s : AnimatedSprite K) (dt : ℚ) (k : K) (q : ℚ)
    (h : s.animation_queue.head? = some (k, q))
    (hsw : (updatePhases s dt).2 = true) :
    q ≤ s.current_queue_time + dt := by
  rcases hma : s.animations s.current_animation_key with _ | a
  · rw [updatePhases_flag_none s dt hma, h] at hsw
    simpa using hsw
  · rw [updatePhases_flag_some s dt a hma, h] at hsw
    simp only [Bool.or_eq_true, decide_eq_true_eq] at hsw
    rcases hsw with h1 | h1 <;> exact h1

/-- If the tracker was active at tick entry and inactive after the
effect-update step, the tick completed the effect: the accumulated
`effect_time + dt` reached `current_effect_duration`. -/
theorem updatePhases_active_expired (s : AnimatedSprite K) (dt : ℚ)
    (hact : s.effects_state.is_active = true)
    (hpost : (updatePhases s dt).1.effects_state.is_active = false) :
    s.effects_state.current_effect_duration ≤ s.effects_state.effect_time + dt := by
  have hes := updatePhases_es s dt
  rcases hma : s.animations s.current_animation_key with _ | a <;> rw [hma] at hes <;>
    dsimp only at hes
  · rw [hes, hact] at hpost
    exact absurd hpost (by simp)
  · rw [effectActivationStep_of_active a.effect (s.current_animation_time + dt)
      s.effects_state hact] at hes
    rw [hes] at hpost
    exact effectUpdateStep_active_expired dt s.effects_state hact hpost

end AnimatedSprite

/-- C1: while the effect tracker is active at the point `update()` checks
its switch guard (`switch_animation && !is_active`, evaluated on the
post-phase state), the call pops nothing and keeps the current animation
key — even if the front queue entry's duration has elapsed.  Consequently,
whenever the switch does fire with front entry `(k, q)`, the front's
duration had elapsed (`q ≤ current_queue_time + dt`, so never before `q`),
and an effect that was in flight at tick entry had run to completion
(`effect_start + capped_duration` reached): the effective switch time is
`max(q, effect_start_time + capped_duration)`. -/
theorem C1_effect_blocks_switch {K : Type} (s : AnimatedSprite K) (dt : ℚ) :
    ((AnimatedSprite.updatePhases s dt).1.effects_state.is_active = true →
      (s.update dt).animation_queue = s.animation_queue ∧
      (s.update dt).current_animation_key = s.current_animation_key) ∧
    (∀ (k : K) (q : ℚ), s.animation_queue.head? = some (k, q) →
      AnimatedSprite.switchFired s dt = true →
      q ≤ s.current_queue_time + dt ∧
      (s.effects_state.is_active = true →
        s.effects_state.current_effect_duration ≤ s.effects_state.effect_time + dt)) := by
  constructor
  · intro hact
    by_cases hp : s.paused = true
    · unfold AnimatedSprite.update
      rw [if_pos hp]
      exact ⟨rfl, rfl⟩
    · have hupd : s.update dt = (AnimatedSprite.updatePhases s dt).1 := by
        unfold AnimatedSprite.update
        rw [if_neg hp]
        dsimp only
        rw [if_neg (by simp [hact])]
      rw [hupd]
      exact ⟨AnimatedSprite.updatePhases_queue s dt, AnimatedSprite.updatePhases_key s dt⟩
  · intro k q hh hsf
    unfold AnimatedSprite.switchFired at hsf
    simp only [Bool.and_eq_true, Bool.not_eq_true'] at hsf
    obtain ⟨⟨hp, hsw⟩, hpost⟩ := hsf
    exact ⟨AnimatedSprite.updatePhases_switch_le s dt k q hh hsw,
      fun hact => AnimatedSprite.updatePhases_active_expired s dt hact hpost⟩

/-- Concrete sprite for the C1 witness: a Start-targeted effect in flight
(`effect_time = 1` of a capped duration 10) while the front queue entry's
duration (5) is about to matter. -/
def spriteC1w : AnimatedSprite Nat :=
  { tile_width := 1
    tile_height := 1
    animations := fun k =>
      if k = 0 then some ((Animation.new 0 4 0).with_start_effect ⟨0⟩ 10) else none
    default_animation_key := 0
    animation_queue := [(0, 5)]
    current_frame := 0
    current_animation_loop_time := 0
    current_animation_time := 0
    current_queue_time := 0
    playing_time := 0
    paused := false
    current_animation_key := 0
    previous_animation_key := none
    effects_state :=
      { effect_time := 1
        current_effect_duration := 10
        effect_start_time := 0
        is_active := true
        has_played := false } }

/-- Concrete sprite for the C1 witness's switch case: no effect, front
entry of duration 1, so a tick of 2 seconds fires the switch. -/
def spriteC1x : AnimatedSprite Nat :=
  { tile_width := 1
    tile_height := 1
    animations := fun k => if k = 0 then some (Animation.new 0 2 0) else none
    default_animation_key := 0
    animation_queue := [(0, 1)]
    current_frame := 0
    current_animation_loop_time := 0
    current_animation_time := 0
    current_queue_time := 0
    playing_time := 0
    paused := false
    current_animation_key := 0
    previous_animation_key := none
    effects_state := InternalEffectsState.new }

/-- C1 witness: the theorem applied at the two concrete sprites. -/
theorem C1_effect_blocks_switch_witness :
    ((AnimatedSprite.updatePhases spriteC1w 1).1.effects_state.is_active = true ∧
      (spriteC1w.update 1).animation_queue = spriteC1w.animation_queue ∧
      (spriteC1w.update 1).current_animation_key = spriteC1w.current_animation_key) ∧
    (spriteC1x.animation_queue.head? = some (0, 1) ∧
      AnimatedSprite.switchFired spriteC1x 2 = true ∧
      (1 : ℚ) ≤ spriteC1x.current_queue_time + 2 ∧
      (spriteC1x.effects_state.is_active = true →
        spriteC1x.effects_state.current_effect_duration ≤
          spriteC1x.effects_state.effect_time + 2)) := by
  have hact : (AnimatedSprite.updatePhases spriteC1w 1).1.effects_state.is_active = true := by
    norm_num [AnimatedSprite.updatePhases, spriteC1w, Animation.new,
      Animation.with_start_effect, AnimatedSprite.drainFrames,
      AnimatedSprite.effectActivationStep, AnimatedSprite.effectUpdateStep]
  have hh : spriteC1x.animation_queue.head? = some (0, 1) := rfl
  have hsf : AnimatedSprite.switchFired spriteC1x 2 = true := by
    norm_num [AnimatedSprite.switchFired, AnimatedSprite.updatePhases, spriteC1x,
      Animation.new, AnimatedSprite.drainFrames, InternalEffectsState.new,
      AnimatedSprite.effectActivationStep, AnimatedSprite.effectUpdateStep]
  exact ⟨⟨hact, (C1_effect_blocks_switch spriteC1w 1).1 hact⟩,
    ⟨hh, hsf, (C1_effect_blocks_switch spriteC1x 2).2 0 1 hh hsf⟩⟩

end QueuedAnimatedSprites

namespace QueuedAnimatedSprites

namespace AnimatedSprite

variable {K : Type}

/-- `start_new_animation` never touches the paused flag. -/
theorem start_new_animation_paused (s : AnimatedSprite K) (key : K) (d : ℚ) :
    (s.start_new_animation key d).paused = s.paused := by
  unfold start_new_animation
  dsimp only
  split
  · rfl
  · split <;> rfl

/-- `start_new_animation` never touches the default key. -/
theorem start_new_animation_default (s : AnimatedSprite K) (key : K) (d : ℚ) :
    (s.start_new_animation key d).default_animation_key = s.default_animation_key := by
  unfold start_new_animation
  dsimp only
  split
  · rfl
  · split <;> rfl

/-- `start_new_animation` never touches the tile width. -/
theorem start_new_animation_tile_width (s : AnimatedSprite K) (key : K) (d : ℚ) :
    (s.start_new_animation key d).tile_width = s.tile_width := by
  unfold start_new_animation
  dsimp only
  split
  · rfl
  · split <;> rfl

/-- `start_new_animation` never touches the tile height. -/
theorem start_new_animation_tile_height (s : AnimatedSprite K) (key : K) (d : ℚ) :
    (s.start_new_animation key d).tile_height = s.tile_height := by
  unfold start_new_animation
  dsimp only
  split
  · rfl
  · split <;> rfl

/-- `start_new_animation` zeroes the loop timer. -/
theorem start_new_animation_loop (s : AnimatedSprite K) (key : K) (d : ℚ) :
    (s.start_new_animation key d).current_animation_loop_time = 0 := by
  unfold start_new_animation
  dsimp only
  split
  · rfl
  · split <;> rfl

/-- When the new animation carries no effect, `start_new_animation` leaves
the tracker fully reset. -/
theorem start_new_animation_es_effect_none (s : AnimatedSprite K) (key : K) (d : ℚ)
    (a : Animation) (hma : s.animations key = some a) (heff : a.effect = none) :
    (s.start_new_animation key d).effects_state = InternalEffectsState.new := by
  unfold start_new_animation
  dsimp only
  rw [hma]
  dsimp only
  rw [heff]
  rfl

/-- `updatePhases` never touches the default key. -/
theorem updatePhases_default (s : AnimatedSprite K) (dt : ℚ) :
    (updatePhases s dt).1.default_animation_key = s.default_animation_key := by
  unfold updatePhases
  dsimp only
  split <;> rfl

/-- `updatePhases` never touches the tile width. -/
theorem updatePhases_tile_width (s : AnimatedSprite K) (dt : ℚ) :
    (updatePhases s dt).1.tile_width = s.tile_width := by
  unfold updatePhases
  dsimp only
  split <;> rfl

/-- `updatePhases` never touches the tile height. -/
theorem updatePhases_tile_height (s : AnimatedSprite K) (dt : ℚ) :
    (updatePhases s dt).1.tile_height = s.tile_height := by
  unfold updatePhases
  dsimp only
  split <;> rfl

/-- `updatePhases` adds the delta to `current_animation_time`. -/
theorem updatePhases_anim_time (s : AnimatedSprite K) (dt : ℚ) :
    (updatePhases s dt).1.current_animation_time = s.current_animation_time + dt := by
  unfold updatePhases
  dsimp only
  split <;> rfl

/-- The post-phase frame when the current key resolves: the drain loop run
on the bumped loop timer. -/
theorem updatePhases_frame_some (s : AnimatedSprite K) (dt : ℚ) (a : Animation)
    (hma : s.animations s.current_animation_key = some a) :
    (updatePhases s dt).1.current_frame =
      (drainFrames a.fps a.total_frames s.current_frame
        (s.current_animation_loop_time + dt)).1 := by
  unfold updatePhases
  dsimp only
  rw [hma]

/-- The post-phase loop timer when the current key resolves. -/
theorem updatePhases_loop_some (s : AnimatedSprite K) (dt : ℚ) (a : Animation)
    (hma : s.animations s.current_animation_key = some a) :
    (updatePhases s dt).1.current_animation_loop_time =
      (drainFrames a.fps a.total_frames s.current_frame
        (s.current_animation_loop_time + dt)).2 := by
  unfold updatePhases
  dsimp only
  rw [hma]

/-- The post-phase frame when the current key does not resolve: untouched. -/
theorem updatePhases_frame_none (s : AnimatedSprite K) (dt : ℚ)
    (hma : s.animations s.current_animation_key = none) :
    (updatePhases s dt).1.current_frame = s.current_frame := by
  unfold updatePhases
  dsimp only
  rw [hma]

/-- The post-phase tracker when the current key resolves. -/
theorem updatePhases_es_some (s : AnimatedSprite K) (dt : ℚ) (a : Animation)
    (hma : s.animations s.current_animation_key = some a) :
    (updatePhases s dt).1.effects_state =
      effectUpdateStep dt
        (effectActivationStep a.effect (s.current_animation_time + dt) s.effects_state) := by
  unfold updatePhases
  dsimp only
  rw [hma]

/-- `update` is the identity while paused. -/
theorem update_of_paused (s : AnimatedSprite K) (dt : ℚ) (hp : s.paused = true) :
    s.update dt = s := by
  unfold update
  rw [if_pos hp]

/-- `update` without a switch is exactly the pre-switch phase. -/
theorem update_no_switch (s : AnimatedSprite K) (dt : ℚ) (hp : s.paused = false)
    (hc : ((updatePhases s dt).2 && !(updatePhases s dt).1.effects_state.is_active) = false) :
    s.update dt = (updatePhases s dt).1 := by
  unfold update
  rw [if_neg (by simp [hp])]
  dsimp only
  rw [if_neg (by simp [hc])]

/-- `update` with a switch into a non-empty remaining queue. -/
theorem update_switch_some (s : AnimatedSprite K) (dt : ℚ) (k : K) (d : ℚ)
    (hp : s.paused = false)
    (hc : ((updatePhases s dt).2 && !(updatePhases s dt).1.effects_state.is_active) = true)
    (hh : (updatePhases s dt).1.animation_queue.tail.head? = some (k, d)) :
    s.update dt =
      AnimatedSprite.start_new_animation
        { (updatePhases s dt).1 with
          animation_queue := (updatePhases s dt).1.animation_queue.tail } k d := by
  unfold update
  rw [if_neg (by simp [hp])]
  dsimp only
  rw [if_pos hc]
  rw [hh]

/-- `update` with a switch that empties the queue: start the default
animation with the unbounded sentinel duration. -/
theorem update_switch_none (s : AnimatedSprite K) (dt : ℚ)
    (hp : s.paused = false)
    (hc : ((updatePhases s dt).2 && !(updatePhases s dt).1.effects_state.is_active) = true)
    (hh : (updatePhases s dt).1.animation_queue.tail.head? = none) :
    s.update dt =
      AnimatedSprite.start_new_animation
        { (updatePhases s dt).1 with
          animation_queue := (updatePhases s dt).1.animation_queue.tail }
        ((updatePhases s dt).1.default_animation_key) f32MAX := by
  unfold update
  rw [if_neg (by simp [hp])]
  dsimp only
  rw [if_pos hc]
  rw [hh]

end AnimatedSprite

end QueuedAnimatedSprites

namespace QueuedAnimatedSprites

/-- Concrete C3 scenario, first stage: `Animation::empty()` registered as
the default, plus a real 2-frame 1-fps animation under key 1. -/
def spriteC3 : AnimatedSprite Nat :=
  (AnimatedSprite.new 32 32 0 Animation.empty).register_animation 1 (Animation.new 0 2 1)

/-- The state after queueing key 1 for 1 second (the queue was empty, so
the animation starts immediately). -/
def spriteC3queued : AnimatedSprite Nat :=
  AnimatedSprite.start_new_animation { spriteC3 with animation_queue := [(1, 1)] } 1 1

/-- Concrete C3 scenario, second stage: key 1 queued for 1 second, then a
2-second tick drains the queue, switching back to the empty default. -/
def spriteC3drained : AnimatedSprite Nat :=
  ((spriteC3.add_animation_to_queue 1 1).1).update 2

theorem spriteC3_add : (spriteC3.add_animation_to_queue 1 1).1 = spriteC3queued := by
  simp [AnimatedSprite.add_animation_to_queue, spriteC3, spriteC3queued,
    AnimatedSprite.register_animation, AnimatedSprite.new]

theorem spriteC3queued_ma :
    spriteC3queued.animations spriteC3queued.current_animation_key
      = some (Animation.new 0 2 1) := by
  rw [show spriteC3queued.current_animation_key = 1 from
    AnimatedSprite.start_new_animation_key _ 1 1]
  rw [show spriteC3queued.animations = spriteC3.animations from
    AnimatedSprite.start_new_animation_animations _ 1 1]
  simp [spriteC3, AnimatedSprite.register_animation, AnimatedSprite.new]

theorem spriteC3queued_es : spriteC3queued.effects_state = InternalEffectsState.new :=
  AnimatedSprite.start_new_animation_es_effect_none _ 1 1 (Animation.new 0 2 1)
    (by simp [spriteC3, AnimatedSprite.register_animation, AnimatedSprite.new]) rfl

theorem spriteC3_switch_cond :
    ((AnimatedSprite.updatePhases spriteC3queued 2).2 &&
      !(AnimatedSprite.updatePhases spriteC3queued 2).1.effects_state.is_active) = true := by
  have hflag : (AnimatedSprite.updatePhases spriteC3queued 2).2 = true := by
    rw [AnimatedSprite.updatePhases_flag_some _ 2 _ spriteC3queued_ma]
    rw [show spriteC3queued.animation_queue = [(1, 1)] from
      AnimatedSprite.start_new_animation_queue _ 1 1]
    rw [show spriteC3queued.current_queue_time = 0 from
      AnimatedSprite.start_new_animation_queue_time _ 1 1]
    norm_num
  have hactive :
      (AnimatedSprite.updatePhases spriteC3queued 2).1.effects_state.is_active = false := by
    rw [AnimatedSprite.updatePhases_es_some _ 2 _ spriteC3queued_ma, spriteC3queued_es]
    norm_num [AnimatedSprite.effectActivationStep, AnimatedSprite.effectUpdateStep,
      Animation.new, InternalEffectsState.new]
  rw [hflag, hactive]
  rfl

theorem spriteC3drained_eq :
    spriteC3drained =
      AnimatedSprite.start_new_animation
        { (AnimatedSprite.updatePhases spriteC3queued 2).1 with
          animation_queue :=
            (AnimatedSprite.updatePhases spriteC3queued 2).1.animation_queue.tail }
        ((AnimatedSprite.updatePhases spriteC3queued 2).1.default_animation_key) f32MAX := by
  rw [show spriteC3drained = spriteC3queued.update 2 by rw [spriteC3drained, spriteC3_add]]
  exact AnimatedSprite.update_switch_none _ 2
    (by rw [show spriteC3queued.paused = ({ spriteC3 with animation_queue := [(1, 1)] } :
        AnimatedSprite Nat).paused from AnimatedSprite.start_new_animation_paused _ 1 1]
        simp [spriteC3, AnimatedSprite.register_animation, AnimatedSprite.new])
    spriteC3_switch_cond
    (by rw [AnimatedSprite.updatePhases_queue,
        show spriteC3queued.animation_queue = [(1, 1)] from
          AnimatedSprite.start_new_animation_queue _ 1 1]
        rfl)

theorem spriteC3drained_queue : spriteC3drained.animation_queue = [] := by
  rw [spriteC3drained_eq, AnimatedSprite.start_new_animation_queue]
  show (AnimatedSprite.updatePhases spriteC3queued 2).1.animation_queue.tail = []
  rw [AnimatedSprite.updatePhases_queue,
    show spriteC3queued.animation_queue = [(1, 1)] from
      AnimatedSprite.start_new_animation_queue _ 1 1]
  rfl

theorem spriteC3drained_default_empty :
    spriteC3drained.animations spriteC3drained.default_animation_key
      = some Animation.empty := by
  rw [spriteC3drained_eq]
  rw [show (AnimatedSprite.start_new_animation
      { (AnimatedSprite.updatePhases spriteC3queued 2).1 with
        animation_queue :=
          (AnimatedSprite.updatePhases spriteC3queued 2).1.animation_queue.tail }
      ((AnimatedSprite.updatePhases spriteC3queued 2).1.default_animation_key) f32MAX).animations
      = (AnimatedSprite.updatePhases spriteC3queued 2).1.animations from
    AnimatedSprite.start_new_animation_animations _ _ _]
  rw [show (AnimatedSprite.start_new_animation
      { (AnimatedSprite.updatePhases spriteC3queued 2).1 with
        animation_queue :=
          (AnimatedSprite.updatePhases spriteC3queued 2).1.animation_queue.tail }
      ((AnimatedSprite.updatePhases spriteC3queued 2).1.default_animation_key)
      f32MAX).default_animation_key
      = (AnimatedSprite.updatePhases spriteC3queued 2).1.default_animation_key from
    AnimatedSprite.start_new_animation_default _ _ _]
  rw [AnimatedSprite.updatePhases_animations, AnimatedSprite.updatePhases_default]
  rw [show spriteC3queued.animations = spriteC3.animations from
    AnimatedSprite.start_new_animation_animations _ 1 1]
  rw [show spriteC3queued.default_animation_key = 0 from
    (AnimatedSprite.start_new_animation_default _ 1 1).trans (by
      simp [spriteC3, AnimatedSprite.register_animation, AnimatedSprite.new])]
  simp [spriteC3, AnimatedSprite.register_animation, AnimatedSprite.new]

theorem spriteC3drained_tile_width : spriteC3drained.tile_width = 32 := by
  rw [spriteC3drained_eq, AnimatedSprite.start_new_animation_tile_width]
  show (AnimatedSprite.updatePhases spriteC3queued 2).1.tile_width = 32
  rw [AnimatedSprite.updatePhases_tile_width,
    show spriteC3queued.tile_width = 32 from
      (AnimatedSprite.start_new_animation_tile_width _ 1 1).trans (by
        simp [spriteC3, AnimatedSprite.register_animation, AnimatedSprite.new])]

theorem spriteC3drained_tile_height : spriteC3drained.tile_height = 32 := by
  rw [spriteC3drained_eq, AnimatedSprite.start_new_animation_tile_height]
  show (AnimatedSprite.updatePhases spriteC3queued 2).1.tile_height = 32
  rw [AnimatedSprite.updatePhases_tile_height,
    show spriteC3queued.tile_height = 32 from
      (AnimatedSprite.start_new_animation_tile_height _ 1 1).trans (by
        simp [spriteC3, AnimatedSprite.register_animation, AnimatedSprite.new])]

/-- C3 counterexample: after the queue drains to the `Animation::empty()`
default, `get_current_frame_rect` returns `some` rectangle (row 0, frame 0,
32 by 32), not `none` as the claim states. -/
theorem C3_empty_default_cex :
    spriteC3drained.animation_queue = [] ∧
    spriteC3drained.get_current_animation = some Animation.empty ∧
    spriteC3drained.get_current_frame_rect = some ⟨0, 0, 32, 32⟩ := by
  have hca : spriteC3drained.get_current_animation = some Animation.empty := by
    unfold AnimatedSprite.get_current_animation AnimatedSprite.get_current_animation_key
    rw [spriteC3drained_queue]
    exact spriteC3drained_default_empty
  refine ⟨spriteC3drained_queue, hca, ?_⟩
  unfold AnimatedSprite.get_current_frame_rect
  rw [hca]
  dsimp only
  simp [Animation.get_row_and_frame_and_fps, Animation.empty, Animation.new,
    AnimatedSprite._get_current_frame_rect, spriteC3drained_tile_width,
    spriteC3drained_tile_height, Nat.mod_one]

/-- C3 amended: with `Animation::empty()` resolvable as the (default)
current animation and the queue drained, `get_current_frame_rect` returns
`some (Rect 0 0 tile_width tile_height)` — regardless of `current_frame`
and of elapsed time — rather than `none`; `none` is returned exactly when
the current key resolves to no registered animation.  (Nothing is drawn for
`empty()` because `draw_animation_ex` returns early on `fps == 0`.) -/
theorem C3_empty_default_amended {K : Type} (s : AnimatedSprite K)
    (hq : s.animation_queue = [])
    (hd : s.animations s.default_animation_key = some Animation.empty) :
    s.get_current_frame_rect = some ⟨0, 0, s.tile_width, s.tile_height⟩ ∧
    ∀ s2 : AnimatedSprite K, s2.get_current_animation = none →
      s2.get_current_frame_rect = none := by
  constructor
  · have hca : s.get_current_animation = some Animation.empty := by
      unfold AnimatedSprite.get_current_animation AnimatedSprite.get_current_animation_key
      rw [hq]
      exact hd
    unfold AnimatedSprite.get_current_frame_rect
    rw [hca]
    dsimp only
    simp [Animation.get_row_and_frame_and_fps, Animation.empty, Animation.new,
      AnimatedSprite._get_current_frame_rect, Nat.mod_one]
  · intro s2 h
    unfold AnimatedSprite.get_current_frame_rect
    rw [h]

/-- C3 witness: the amended theorem applied at the concrete drained
sprite. -/
theorem C3_empty_default_witness :
    spriteC3drained.animation_queue = [] ∧
    spriteC3drained.animations spriteC3drained.default_animation_key
      = some Animation.empty ∧
    spriteC3drained.get_current_frame_rect =
      some ⟨0, 0, spriteC3drained.tile_width, spriteC3drained.tile_height⟩ :=
  ⟨spriteC3drained_queue, spriteC3drained_default_empty,
    (C3_empty_default_amended spriteC3drained spriteC3drained_queue
      spriteC3drained_default_empty).1⟩

end QueuedAnimatedSprites

namespace QueuedAnimatedSprites

/-- The drain loop keeps the frame index below `total_frames` whenever it
was below before. -/
theorem drainFrames_lt (fps total_frames fr : Nat) (t : ℚ) (h : fr < total_frames) :
    (AnimatedSprite.drainFrames fps total_frames fr t).1 < total_frames := by
  unfold AnimatedSprite.drainFrames
  split
  · exact h
  · dsimp only
    split
    · exact h
    · exact Nat.mod_lt _ (lt_of_le_of_lt (Nat.zero_le fr) h)

/-- The frame-bound invariant with respect to the animation registered
under `current_animation_key` — the animation `update`'s frame advance
actually consults. -/
def CurrentKeyFrameInv {K : Type} (s : AnimatedSprite K) : Prop :=
  ∀ a, s.animations s.current_animation_key = some a →
    0 < a.total_frames → s.current_frame < a.total_frames

/-- The animations of the C7 counterexample: a 6-frame 1-fps animation
(key 0, the default) and a 2-frame animation (key 1). -/
def animC7A : Animation := Animation.new 0 6 1

def animC7B : Animation := Animation.new 1 2 5

def spriteC7base : AnimatedSprite Nat :=
  (AnimatedSprite.new 32 32 0 animC7A).register_animation 1 animC7B

/-- State after `add_animation_to_queue(0, 100)` into the empty queue. -/
def spriteC7a : AnimatedSprite Nat :=
  AnimatedSprite.start_new_animation { spriteC7base with animation_queue := [(0, 100)] } 0 100

theorem spriteC7_add1 : (spriteC7base.add_animation_to_queue 0 100).1 = spriteC7a := by
  simp [AnimatedSprite.add_animation_to_queue, spriteC7base, spriteC7a, animC7A,
    AnimatedSprite.register_animation, AnimatedSprite.new]

/-- State after further `add_animation_to_queue(1, 5)` and `next_in_queue()`:
the queue front is now key 1, but `current_animation_key` is still 0. -/
def spriteC7pre : AnimatedSprite Nat :=
  ({ spriteC7a with animation_queue := [(0, 100), (1, 5)] } : AnimatedSprite Nat).next_in_queue

theorem spriteC7_add2 :
    ((spriteC7base.add_animation_to_queue 0 100).1.add_animation_to_queue 1 5).1.next_in_queue
      = spriteC7pre := by
  rw [spriteC7_add1]
  have h2 : (spriteC7a.add_animation_to_queue 1 5).1
      = { spriteC7a with animation_queue := [(0, 100), (1, 5)] } := by
    unfold AnimatedSprite.add_animation_to_queue
    rw [if_pos (by
      rw [show spriteC7a.animations = spriteC7base.animations from
        AnimatedSprite.start_new_animation_animations _ 0 100]
      simp [spriteC7base, AnimatedSprite.register_animation, animC7B])]
    dsimp only
    rw [show spriteC7a.animation_queue = [(0, 100)] from
      AnimatedSprite.start_new_animation_queue _ 0 100]
    rw [if_neg (by norm_num)]
    rfl
  rw [h2, spriteC7pre]

/-- The C7 counterexample state: the op chain
new → register → enqueue(0,100) → enqueue(1,5) → next_in_queue → update(3s). -/
def spriteC7cex : AnimatedSprite Nat := spriteC7pre.update 3

theorem spriteC7pre_ma :
    spriteC7pre.animations spriteC7pre.current_animation_key = some animC7A := by
  show spriteC7a.animations spriteC7a.current_animation_key = some animC7A
  rw [show spriteC7a.current_animation_key = 0 from
    AnimatedSprite.start_new_animation_key _ 0 100]
  rw [show spriteC7a.animations = spriteC7base.animations from
    AnimatedSprite.start_new_animation_animations _ 0 100]
  simp [spriteC7base, AnimatedSprite.register_animation, AnimatedSprite.new]

theorem spriteC7_no_switch :
    ((AnimatedSprite.updatePhases spriteC7pre 3).2 &&
      !(AnimatedSprite.updatePhases spriteC7pre 3).1.effects_state.is_active) = false := by
  have hflag : (AnimatedSprite.updatePhases spriteC7pre 3).2 = false := by
    rw [AnimatedSprite.updatePhases_flag_some _ 3 _ spriteC7pre_ma]
    show ((match ([(1, 5)] : List (Nat × ℚ)).head? with
      | some (_, d) => decide (d ≤ spriteC7pre.current_queue_time + 3)
      | none => false) ||
      decide ((match ([(1, 5)] : List (Nat × ℚ)).head? with
        | some (_, d) => d
        | none => f32MAX) ≤ spriteC7pre.current_queue_time + 3)) = false
    rw [show spriteC7pre.current_queue_time = 0 from
      AnimatedSprite.start_new_animation_queue_time _ 0 100]
    norm_num
  rw [hflag]
  rfl

theorem spriteC7cex_frame : spriteC7cex.current_frame = 3 := by
  rw [spriteC7cex, AnimatedSprite.update_no_switch _ 3
    (show spriteC7pre.paused = false from rfl) spriteC7_no_switch]
  rw [AnimatedSprite.updatePhases_frame_some _ 3 _ spriteC7pre_ma]
  rw [show spriteC7pre.current_frame = 0 from rfl,
    show spriteC7pre.current_animation_loop_time = 0 from
      AnimatedSprite.start_new_animation_loop _ 0 100]
  rw [show animC7A.fps = 1 from rfl, show animC7A.total_frames = 6 from rfl]
  rw [AnimatedSprite.drainFrames]
  norm_num
  simp

/-- C7 counterexample: the state reached by
`new(32,32,0,animC7A); register(1,animC7B); enqueue(0,100); enqueue(1,5);
next_in_queue(); update(3s)` has a queue-front-resolved current animation
with `total_frames = 2 > 0` yet `current_frame = 3` — `update`'s frame
advance used `current_animation_key` (still key 0, 6 frames), which
`next_in_queue` had left out of sync with the queue front, so the claimed
invariant over the queue-front-resolved animation fails. -/
theorem C7_frame_bound_cex :
    spriteC7cex.get_current_animation = some animC7B ∧
    0 < animC7B.total_frames ∧
    ¬ (spriteC7cex.current_frame < animC7B.total_frames) := by
  have hq : spriteC7cex.animation_queue = [(1, 5)] := by
    rw [spriteC7cex, AnimatedSprite.update_no_switch _ 3
      (show spriteC7pre.paused = false from rfl) spriteC7_no_switch]
    rw [AnimatedSprite.updatePhases_queue]
    rfl
  have hca : spriteC7cex.get_current_animation = some animC7B := by
    unfold AnimatedSprite.get_current_animation AnimatedSprite.get_current_animation_key
    rw [hq]
    rw [show spriteC7cex.animations = spriteC7pre.animations by
      rw [spriteC7cex, AnimatedSprite.update_no_switch _ 3
        (show spriteC7pre.paused = false from rfl) spriteC7_no_switch]
      exact AnimatedSprite.updatePhases_animations _ 3]
    rw [show spriteC7pre.animations = spriteC7base.animations from
      AnimatedSprite.start_new_animation_animations _ 0 100]
    simp [spriteC7base, AnimatedSprite.register_animation]
  refine ⟨hca, by norm_num [animC7B, Animation.new, Animation.total_frames], ?_⟩
  rw [spriteC7cex_frame]
  norm_num [animC7B, Animation.new, Animation.total_frames]

/-- C7 amended: the bound `current_frame < total_frames` is established by
the start-transition (which writes frame 0) and by `set_frame` (modulo the
queue-front/default-resolved animation it consults), and `update`'s modular
frame advance preserves it with respect to the animation registered under
`current_animation_key` — the one it actually consults.  After
`next_in_queue`, `current_animation_key` can diverge from the queue-front
resolution, and the bound for the queue-front-resolved animation (the
claim's formulation) can then be violated by `update`, as the
counterexample shows. -/
theorem C7_frame_bound_amended {K : Type} (s : AnimatedSprite K) (dt : ℚ) (key : K) (d : ℚ)
    (f : Nat) :
    (s.start_new_animation key d).current_frame = 0 ∧
    (CurrentKeyFrameInv s → CurrentKeyFrameInv (s.update dt)) ∧
    (∀ a s2, s.set_frame f = some s2 → s.get_current_animation = some a →
      0 < a.total_frames → s2.current_frame < a.total_frames) := by
  refine ⟨AnimatedSprite.start_new_animation_frame s key d, ?_, ?_⟩
  · intro hinv a hma htf
    by_cases hp : s.paused = true
    · rw [AnimatedSprite.update_of_paused s dt hp] at hma ⊢
      exact hinv a hma htf
    · have hp2 : s.paused = false := by
        cases h : s.paused
        · rfl
        · exact absurd h hp
      cases hc : ((AnimatedSprite.updatePhases s dt).2 &&
          !(AnimatedSprite.updatePhases s dt).1.effects_state.is_active)
      · rw [AnimatedSprite.update_no_switch s dt hp2 hc] at hma ⊢
        rw [AnimatedSprite.updatePhases_animations, AnimatedSprite.updatePhases_key] at hma
        rw [AnimatedSprite.updatePhases_frame_some s dt a hma]
        exact drainFrames_lt _ _ _ _ (hinv a hma htf)
      · rcases hh : (AnimatedSprite.updatePhases s dt).1.animation_queue.tail.head? with
          _ | ⟨k2, d2⟩
        · rw [AnimatedSprite.update_switch_none s dt hp2 hc hh] at hma ⊢
          rw [AnimatedSprite.start_new_animation_frame]
          exact htf
        · rw [AnimatedSprite.update_switch_some s dt k2 d2 hp2 hc hh] at hma ⊢
          rw [AnimatedSprite.start_new_animation_frame]
          exact htf
  · intro a s2 hsf hca htf
    unfold AnimatedSprite.set_frame at hsf
    rw [hca] at hsf
    dsimp only at hsf
    injection hsf with hsf
    rw [← hsf]
    exact Nat.mod_lt _ htf

/-- Concrete sprite for the C7 witness. -/
def spriteC7w : AnimatedSprite Nat := AnimatedSprite.new 1 1 0 (Animation.new 0 4 1)

/-- C7 witness: the amended theorem applied at a concrete sprite,
discharging the invariant hypothesis and the `set_frame` hypotheses. -/
theorem C7_frame_bound_witness :
    CurrentKeyFrameInv spriteC7w ∧
    CurrentKeyFrameInv (spriteC7w.update 1) ∧
    (spriteC7w.start_new_animation 0 5).current_frame = 0 ∧
    spriteC7w.set_frame 7 = some { spriteC7w with current_frame := 3 } ∧
    spriteC7w.get_current_animation = some (Animation.new 0 4 1) ∧
    ({ spriteC7w with current_frame := 3 } : AnimatedSprite Nat).current_frame
      < (Animation.new 0 4 1).total_frames := by
  have hinv : CurrentKeyFrameInv spriteC7w := by
    intro a ha htf
    simp [spriteC7w, AnimatedSprite.new] at ha
    subst ha
    simpa [spriteC7w, AnimatedSprite.new] using htf
  have hca : spriteC7w.get_current_animation = some (Animation.new 0 4 1) := by
    simp [spriteC7w, AnimatedSprite.get_current_animation,
      AnimatedSprite.get_current_animation_key, AnimatedSprite.new]
  have hsf : spriteC7w.set_frame 7 = some { spriteC7w with current_frame := 3 } := by
    unfold AnimatedSprite.set_frame
    rw [hca]
    norm_num [Animation.new, Animation.total_frames]
  have h := C7_frame_bound_amended spriteC7w 1 0 5 7
  exact ⟨hinv, h.2.1 hinv, h.1, hsf, hca,
    h.2.2 (Animation.new 0 4 1) _ hsf hca (by norm_num [Animation.new, Animation.total_frames])⟩

end QueuedAnimatedSprites

namespace QueuedAnimatedSprites

/-- Closed form of one drain-loop run for a positive frame rate: starting
below `total_frames` with a non-negative loop timer, the loop runs
`⌊t * fps⌋` times. -/
theorem drainFrames_closed (fps total_frames fr : Nat) (t : ℚ) (hF : 1 ≤ fps) (ht : 0 ≤ t)
    (hfr : fr < total_frames) :
    AnimatedSprite.drainFrames fps total_frames fr t =
      ((fr + (⌊t * (fps : ℚ)⌋).toNat) % total_frames,
        t - ((⌊t * (fps : ℚ)⌋).toNat : ℚ) * (1 / (fps : ℚ))) := by
  unfold AnimatedSprite.drainFrames
  rw [if_neg (by omega)]
  dsimp only
  have hFpos : (0 : ℚ) < fps := by
    exact_mod_cast Nat.lt_of_lt_of_le Nat.zero_lt_one hF
  split
  · next hlt =>
    have hx1 : t * fps < 1 := (lt_div_iff₀ hFpos).mp hlt
    have hfl : ⌊t * (fps : ℚ)⌋ = 0 := Int.floor_eq_zero_iff.mpr ⟨by positivity, hx1⟩
    rw [hfl]
    simp [Nat.mod_eq_of_lt hfr]
  · rfl

/-- After one drain-loop run the loop timer lands in `[0, 1/fps)`. -/
theorem drainRemainder_bounds (fps : Nat) (t : ℚ) (hF : 1 ≤ fps) (ht : 0 ≤ t) :
    0 ≤ t - ((⌊t * (fps : ℚ)⌋).toNat : ℚ) * (1 / (fps : ℚ)) ∧
    t - ((⌊t * (fps : ℚ)⌋).toNat : ℚ) * (1 / (fps : ℚ)) < 1 / (fps : ℚ) := by
  have hFpos : (0 : ℚ) < fps := by
    exact_mod_cast Nat.lt_of_lt_of_le Nat.zero_lt_one hF
  have hFne : (fps : ℚ) ≠ 0 := ne_of_gt hFpos
  have hx0 : (0 : ℚ) ≤ t * fps := by positivity
  have hcast : ((⌊t * (fps : ℚ)⌋.toNat : ℚ)) = ((⌊t * (fps : ℚ)⌋ : ℤ) : ℚ) := by
    exact_mod_cast Int.toNat_of_nonneg (Int.floor_nonneg.mpr hx0)
  rw [hcast]
  have heq : t - ((⌊t * (fps : ℚ)⌋ : ℤ) : ℚ) * (1 / (fps : ℚ))
      = (t * fps - ((⌊t * (fps : ℚ)⌋ : ℤ) : ℚ)) * (1 / (fps : ℚ)) := by
    field_simp
  rw [heq]
  constructor
  · have h0 : (0 : ℚ) ≤ t * fps - ((⌊t * (fps : ℚ)⌋ : ℤ) : ℚ) :=
      sub_nonneg.mpr (Int.floor_le _)
    positivity
  · calc (t * fps - ((⌊t * (fps : ℚ)⌋ : ℤ) : ℚ)) * (1 / (fps : ℚ))
        < 1 * (1 / (fps : ℚ)) := by
          refine mul_lt_mul_of_pos_right ?_ (by positivity)
          have := Int.lt_floor_add_one (t * (fps : ℚ))
          linarith
    _ = 1 / (fps : ℚ) := one_mul _

/-- Invariant carried through C2's tick induction: unpaused, empty queue,
the fixed animation current, frame in range, loop timer in `[0, 1/fps)`. -/
def C2Inv {K : Type} (a : Animation) (s : AnimatedSprite K) : Prop :=
  s.paused = false ∧ s.animation_queue = [] ∧
  s.animations s.current_animation_key = some a ∧
  s.current_frame < a.total_frames ∧
  0 ≤ s.current_animation_loop_time ∧
  s.current_animation_loop_time < 1 / (a.fps : ℚ)

/-- One tick under the C2 invariant: no switch happens, the frame advances
by `⌊(loop + dt) * fps⌋` modulo `total_frames`, and the timers move as the
source dictates. -/
theorem C2_step {K : Type} (a : Animation) (s : AnimatedSprite K) (dt : ℚ)
    (hF : 1 ≤ a.fps) (hinv : C2Inv a s) (hdt : 0 ≤ dt)
    (hqt : s.current_queue_time + dt < f32MAX) :
    C2Inv a (s.update dt) ∧
    (s.update dt).current_frame =
      (s.current_frame +
        (⌊(s.current_animation_loop_time + dt) * (a.fps : ℚ)⌋).toNat) % a.total_frames ∧
    (s.update dt).current_animation_loop_time =
      s.current_animation_loop_time + dt -
        ((⌊(s.current_animation_loop_time + dt) * (a.fps : ℚ)⌋).toNat : ℚ) *
          (1 / (a.fps : ℚ)) ∧
    (s.update dt).current_queue_time = s.current_queue_time + dt := by
  obtain ⟨hp, hq, hma, hfr, hl0, hl1⟩ := hinv
  have hflag : (AnimatedSprite.updatePhases s dt).2 = false := by
    rw [AnimatedSprite.updatePhases_flag_some s dt a hma, hq]
    show (false || decide (f32MAX ≤ s.current_queue_time + dt)) = false
    simp only [Bool.false_or]
    exact decide_eq_false (not_le.mpr hqt)
  have hc : ((AnimatedSprite.updatePhases s dt).2 &&
      !(AnimatedSprite.updatePhases s dt).1.effects_state.is_active) = false := by
    rw [hflag]
    rfl
  have hupd := AnimatedSprite.update_no_switch s dt hp hc
  have htpos : 0 ≤ s.current_animation_loop_time + dt := add_nonneg hl0 hdt
  have hdrain := drainFrames_closed a.fps a.total_frames s.current_frame
    (s.current_animation_loop_time + dt) hF htpos hfr
  have hbnds := drainRemainder_bounds a.fps (s.current_animation_loop_time + dt) hF htpos
  have hframe : (s.update dt).current_frame =
      (s.current_frame +
        (⌊(s.current_animation_loop_time + dt) * (a.fps : ℚ)⌋).toNat) % a.total_frames := by
    rw [hupd, AnimatedSprite.updatePhases_frame_some s dt a hma, hdrain]
  have hloop : (s.update dt).current_animation_loop_time =
      s.current_animation_loop_time + dt -
        ((⌊(s.current_animation_loop_time + dt) * (a.fps : ℚ)⌋).toNat : ℚ) *
          (1 / (a.fps : ℚ)) := by
    rw [hupd, AnimatedSprite.updatePhases_loop_some s dt a hma, hdrain]
  refine ⟨⟨?_, ?_, ?_, ?_, ?_, ?_⟩, hframe, hloop, ?_⟩
  · rw [hupd, AnimatedSprite.updatePhases_paused]
    exact hp
  · rw [hupd, AnimatedSprite.updatePhases_queue]
    exact hq
  · rw [hupd, AnimatedSprite.updatePhases_animations, AnimatedSprite.updatePhases_key]
    exact hma
  · rw [hupd, AnimatedSprite.updatePhases_frame_some s dt a hma]
    exact drainFrames_lt _ _ _ _ hfr
  · rw [hloop]
    exact hbnds.1
  · rw [hloop]
    exact hbnds.2
  · rw [hupd, AnimatedSprite.updatePhases_queue_time]

theorem ticks_cons {K : Type} (s : AnimatedSprite K) (d : ℚ) (ds : List ℚ) :
    s.ticks (d :: ds) = (s.update d).ticks ds := rfl

/-- Folding C2 steps over a delta list: the invariant is preserved, some
total number `n` of whole frame periods is drained, and the loop timer
accounts exactly for the elapsed time minus those periods — no time is
dropped. -/
theorem C2_fold {K : Type} (a : Animation) (hF : 1 ≤ a.fps) :
    ∀ (dts : List ℚ) (s : AnimatedSprite K), C2Inv a s →
      (∀ d ∈ dts, 0 ≤ d) → s.current_queue_time + dts.sum < f32MAX →
      ∃ n : Nat, C2Inv a (s.ticks dts) ∧
        (s.ticks dts).current_frame = (s.current_frame + n) % a.total_frames ∧
        (s.ticks dts).current_animation_loop_time =
          s.current_animation_loop_time + dts.sum - (n : ℚ) * (1 / (a.fps : ℚ)) := by
  intro dts
  induction dts with
  | nil =>
    intro s hinv _ _
    refine ⟨0, hinv, ?_, ?_⟩
    · show s.current_frame = (s.current_frame + 0) % a.total_frames
      rw [Nat.add_zero, Nat.mod_eq_of_lt hinv.2.2.2.1]
    · show s.current_animation_loop_time
        = s.current_animation_loop_time + ([] : List ℚ).sum - (0 : ℚ) * (1 / (a.fps : ℚ))
      simp
  | cons d ds ih =>
    intro s hinv hds hqt
    rw [List.sum_cons] at hqt
    have hd0 : 0 ≤ d := hds d (by simp)
    have hds0 : 0 ≤ ds.sum := List.sum_nonneg (fun x hx => hds x (by simp [hx]))
    have hqt1 : s.current_queue_time + d < f32MAX := by linarith
    obtain ⟨hinv1, hfr1, hl1, hq1⟩ := C2_step a s d hF hinv hd0 hqt1
    have hqt2 : (s.update d).current_queue_time + ds.sum < f32MAX := by
      rw [hq1]
      linarith
    obtain ⟨m, hinv2, hfr2, hl2⟩ :=
      ih (s.update d) hinv1 (fun x hx => hds x (by simp [hx])) hqt2
    refine ⟨(⌊(s.current_animation_loop_time + d) * (a.fps : ℚ)⌋).toNat + m, hinv2, ?_, ?_⟩
    · rw [ticks_cons, hfr2, hfr1, Nat.mod_add_mod, Nat.add_assoc]
    · rw [ticks_cons, hl2, hl1, List.sum_cons]
      push_cast
      ring

/-- C2: with fps `F ≥ 1` and `N ≥ 1` total frames, starting at frame 0
with a zero loop timer, an unpaused empty-queue sprite ticked with
non-negative deltas summing to exactly `k / F` seconds ends at
`current_frame = k mod N`; the drain loop consumes arbitrarily large
deltas one frame period at a time and drops no time. -/
theorem C2_frame_advance {K : Type} (s : AnimatedSprite K) (a : Animation) (dts : List ℚ)
    (k : Nat)
    (hp : s.paused = false) (hq : s.animation_queue = [])
    (hma : s.animations s.current_animation_key = some a)
    (hF : 1 ≤ a.fps) (hN : 1 ≤ a.total_frames)
    (hf0 : s.current_frame = 0) (hl0 : s.current_animation_loop_time = 0)
    (hds : ∀ d ∈ dts, 0 ≤ d)
    (hsum : dts.sum = (k : ℚ) / (a.fps : ℚ))
    (hqt : s.current_queue_time + dts.sum < f32MAX) :
    (s.ticks dts).current_frame = k % a.total_frames := by
  have hFpos : (0 : ℚ) < a.fps := by
    exact_mod_cast Nat.lt_of_lt_of_le Nat.zero_lt_one hF
  have hinv : C2Inv a s := by
    refine ⟨hp, hq, hma, ?_, ?_, ?_⟩
    · rw [hf0]
      exact hN
    · rw [hl0]
    · rw [hl0]
      positivity
  obtain ⟨n, hinv2, hfr, hl⟩ := C2_fold a hF dts s hinv hds hqt
  rw [hl0, hsum] at hl
  have hlo := hinv2.2.2.2.2.1
  have hhi := hinv2.2.2.2.2.2
  rw [hl] at hlo hhi
  have hdiv : (k : ℚ) / (a.fps : ℚ) = (k : ℚ) * (1 / (a.fps : ℚ)) := by ring
  rw [hdiv] at hlo hhi
  have hcpos : (0 : ℚ) < 1 / (a.fps : ℚ) := by positivity
  have h1 : (n : ℚ) ≤ (k : ℚ) := by nlinarith
  have h2 : (k : ℚ) < (n : ℚ) + 1 := by nlinarith
  have hnk : n = k := by
    have ha : n ≤ k := by exact_mod_cast h1
    have hb : k < n + 1 := by exact_mod_cast h2
    omega
  rw [hfr, hf0, Nat.zero_add, hnk]

end QueuedAnimatedSprites

namespace QueuedAnimatedSprites

/-- Concrete sprite for the C2 witness: a 3-frame 2-fps animation as the
current (default) animation, empty queue. -/
def spriteC2w : AnimatedSprite Nat := AnimatedSprite.new 1 1 0 (Animation.new 0 3 2)

/-- C2 witness: ticking with deltas `[1/4, 1/4, 1/2, 1/2, 1/2]` (sum
`2 = 4 / fps` seconds, including deltas larger than one frame period)
leaves `current_frame = 4 mod 3 = 1`. -/
theorem C2_frame_advance_witness :
    ([(1 : ℚ)/4, 1/4, 1/2, 1/2, 1/2].sum = (4 : ℚ) / ((Animation.new 0 3 2).fps : ℚ)) ∧
    (spriteC2w.ticks [1/4, 1/4, 1/2, 1/2, 1/2]).current_frame
      = 4 % (Animation.new 0 3 2).total_frames := by
  have hma : spriteC2w.animations spriteC2w.current_animation_key
      = some (Animation.new 0 3 2) := by
    simp [spriteC2w, AnimatedSprite.new]
  have hF : 1 ≤ (Animation.new 0 3 2).fps := by norm_num [Animation.new]
  have hN : 1 ≤ (Animation.new 0 3 2).total_frames := by
    norm_num [Animation.new, Animation.total_frames]
  have hds : ∀ d ∈ [(1 : ℚ)/4, 1/4, 1/2, 1/2, 1/2], 0 ≤ d := by
    intro d hd
    fin_cases hd <;> norm_num
  have hsum : [(1 : ℚ)/4, 1/4, 1/2, 1/2, 1/2].sum
      = (4 : ℚ) / ((Animation.new 0 3 2).fps : ℚ) := by
    norm_num [Animation.new]
  have hqt : spriteC2w.current_queue_time + [(1 : ℚ)/4, 1/4, 1/2, 1/2, 1/2].sum < f32MAX := by
    norm_num [spriteC2w, AnimatedSprite.new, f32MAX]
  exact ⟨hsum, C2_frame_advance spriteC2w (Animation.new 0 3 2) _ 4 rfl rfl hma hF hN
    rfl rfl hds hsum hqt⟩

end QueuedAnimatedSprites
